import Mathlib

/-!
# Verification of the LS-8 emulator core (`ls8/cpu.py`)

A shallow embedding of the CPU class of `src/ls8/cpu.py`.  Python integers
are unbounded, so every machine value is modelled as `Int`.  Python list
indexing and element assignment are fallible (negative indices wrap once,
out-of-range access raises `IndexError`), so they are modelled by `pyGet`
and `pySet` returning `Except`.  Python exceptions carry along whatever
mutations already happened, so every instruction handler returns a `Res`:
either a successor state or an error paired with the state at the moment
the exception was raised.  `datetime` values are modelled as integer
timestamps; the subtraction of two of them yields a `timedelta` value, and
Python rich comparison between a `timedelta` and an `int` raises
`TypeError`, which is the behaviour of line 140 of the source.
-/

set_option maxRecDepth 100000

namespace LS8

/-! ## Opcode and flag constants (lines 6-25 of cpu.py) -/

def LDI : Int := 0b10000010

def PRN : Int := 0b01000111

def HLT : Int := 0b00000001

def ADD : Int := 0b10100000

def MUL : Int := 0b10100010

def PUSH : Int := 0b01000101

def POP : Int := 0b01000110

def JMP : Int := 0b01010100

def CALL : Int := 0b01010000

def RET : Int := 0b00010001

def ST : Int := 0b10000100

def CMP : Int := 0b10100111

def JEQ : Int := 0b01010101

def JNE : Int := 0b01010110

/-- Index of the stack-pointer register (`SP = 7`). -/
def SP : Int := 7

def L : Int := 0b00000100

def G : Int := 0b00000010

def E : Int := 0b00000001

/-! ## Errors raised by the Python runtime or by the program itself -/

/-- The ways a call into the CPU code can abort:  a `TypeError` from an
unsupported comparison, an `IndexError` from list indexing, `sys.exit`
after printing a diagnostic, or an explicit `raise Exception`. -/
inductive PyErr where
  | typeError (msg : String)
  | indexError (msg : String)
  | systemExit (code : Int)
  | exception (msg : String)
deriving DecidableEq

/-- Diagnostic printed by `handle_PUSH` before `sys.exit(1)`. -/
def pushOverflowMsg : String := "STACK OVERFLOW! Exceeded maximum allocated space for the stack..."

/-- Diagnostic printed by `handle_POP` before `sys.exit(1)`. -/
def popUnderflowMsg : String := "STACK UNDERFLOW! Stack is empty..."

/-- Message of the exception raised by `alu` for unsupported opcodes. -/
def aluUnsupportedMsg : String := "Unsupported ALU operation"

/-- Message of the `TypeError` raised by Python 3 when `>=` is applied to a
`datetime.timedelta` and an `int` (line 140 of cpu.py). -/
def timedeltaGeIntMsg : String := ">= not supported between instances of datetime.timedelta and int"

/-! ## Python values appearing in the timer-interrupt guard -/

/-- The two Python value kinds that meet in the comparison on line 140:
plain integers and `datetime.timedelta` differences. -/
inductive PyVal where
  | int (n : Int)
  | timedelta (micros : Int)
deriving DecidableEq

/-- Python rich comparison `a >= b`.  `int`s compare with `int`s and
`timedelta`s compare with `timedelta`s; for the mixed pair both operands
answer `NotImplemented`, so the interpreter raises `TypeError`. -/
def pyGE : PyVal → PyVal → Except PyErr Bool
  | PyVal.int a, PyVal.int b => .ok (decide (b ≤ a))
  | PyVal.timedelta a, PyVal.timedelta b => .ok (decide (b ≤ a))
  | _, _ => .error (.typeError timedeltaGeIntMsg)

/-! ## Python list indexing -/

/-- Resolve a Python list index: indices in `[0, n)` are used as given,
indices in `[-n, 0)` wrap once from the end, anything else raises
`IndexError`. -/
def pyIndex (n : Nat) (i : Int) : Except PyErr Nat :=
  if 0 ≤ i ∧ i < (n : Int) then .ok i.toNat
  else if -(n : Int) ≤ i ∧ i < 0 then .ok (i + (n : Int)).toNat
  else .error (.indexError "list index out of range")

/-- Python `l[i]` on a list of integers. -/
def pyGet (l : List Int) (i : Int) : Except PyErr Int :=
  match pyIndex l.length i with
  | .ok j => .ok (l.getD j 0)
  | .error e => .error e

/-- Python `l[i] = v` on a list of integers. -/
def pySet (l : List Int) (i : Int) (v : Int) : Except PyErr (List Int) :=
  match pyIndex l.length i with
  | .ok j => .ok (l.set j v)
  | .error e => .error e

/-! ## Machine state -/

/-- The mutable fields of the `CPU` object (lines 30-39 of cpu.py), plus
the list of lines printed so far, which is the observable output channel. -/
structure CPU where
  ram : List Int
  reg : List Int
  pc : Int
  fl : Int
  halted : Bool
  end_of_stack : Int
  last_saved_time : Int
  output : List String
deriving DecidableEq

/-- The state built by `CPU.__init__`: 256 zeroed RAM cells, 8 zeroed
registers with `reg[SP] = 0xF4`, `pc = 0`, `fl = 0`, not halted,
`end_of_stack = 0`. -/
def initState : CPU :=
  { ram := List.replicate 256 0
    reg := (List.replicate 8 0).set 7 0xF4
    pc := 0
    fl := 0
    halted := false
    end_of_stack := 0
    last_saved_time := 0
    output := [] }

/-- Register file accessor used in specifications: `reg[i]` for a known
in-range index. -/
def regVal (s : CPU) (i : Nat) : Int := s.reg.getD i 0

/-- RAM accessor used in specifications: `ram[i]` for a known in-range
index. -/
def memVal (s : CPU) (i : Nat) : Int := s.ram.getD i 0

/-- Result of running a piece of CPU code: either the successor state, or
an error together with the state at the moment it was raised (Python
exceptions do not roll back prior mutations). -/
inductive Res where
  | ok (s : CPU)
  | err (s : CPU) (e : PyErr)
deriving DecidableEq

/-- Sequencing on `Res`: run `f` on the successor state unless an error
already occurred. -/
def Res.andThen (r : Res) (f : CPU → Res) : Res :=
  match r with
  | .ok s => f s
  | .err s e => .err s e

/-- Lift a fallible list operation into `Res`-producing code: on failure
the error is recorded together with the current state `s`. -/
def liftE {α : Type} (s : CPU) (x : Except PyErr α) (f : α → Res) : Res :=
  match x with
  | .ok v => f v
  | .error e => .err s e

/-- `print(msg)`: append one line to the output channel. -/
def printOut (s : CPU) (msg : String) : CPU :=
  { s with output := s.output ++ [ msg ] }

/-! ## The ALU (lines 70-85 of cpu.py) -/

/-- `CPU.alu`: `ADD` and `MUL` write the exact (unbounded) sum or product
back into `reg[reg_a]`; `CMP` sets the flags register to `E`, `L` or `G`;
any other opcode raises `Exception("Unsupported ALU operation")`. -/
def alu (s : CPU) (op reg_a reg_b : Int) : Res :=
  if op = ADD then
    liftE s (pyGet s.reg reg_a) fun va =>
    liftE s (pyGet s.reg reg_b) fun vb =>
    liftE s (pySet s.reg reg_a (va + vb)) fun reg1 =>
    .ok { s with reg := reg1 }
  else if op = MUL then
    liftE s (pyGet s.reg reg_a) fun va =>
    liftE s (pyGet s.reg reg_b) fun vb =>
    liftE s (pySet s.reg reg_a (va * vb)) fun reg1 =>
    .ok { s with reg := reg1 }
  else if op = CMP then
    liftE s (pyGet s.reg reg_a) fun va =>
    liftE s (pyGet s.reg reg_b) fun vb =>
    if va = vb then .ok { s with fl := E }
    else if va < vb then .ok { s with fl := L }
    else .ok { s with fl := G }
  else .err s (.exception aluUnsupportedMsg)

/-! ## Instruction handlers (lines 184-241 of cpu.py) -/

/-- `handle_LDI`: `reg[operand_a] = operand_b`. -/
def handle_LDI (s : CPU) (operand_a operand_b : Int) : Res :=
  liftE s (pySet s.reg operand_a operand_b) fun reg1 =>
  .ok { s with reg := reg1 }

/-- `handle_PRN`: print `reg[operand_a]`. -/
def handle_PRN (s : CPU) (operand_a : Int) : Res :=
  liftE s (pyGet s.reg operand_a) fun v =>
  .ok (printOut s (toString v))

/-- `handle_HLT`: set the halted flag. -/
def handle_HLT (s : CPU) : Res :=
  .ok { s with halted := true }

/-- `handle_ALU`: re-fetch the opcode from `ram[pc]` and hand it to the
ALU. -/
def handle_ALU (s : CPU) (operand_a operand_b : Int) : Res :=
  liftE s (pyGet s.ram s.pc) fun IR =>
  alu s IR operand_a operand_b

/-- `handle_PUSH`: if `reg[SP] - 1` would fall below `end_of_stack`, print
the stack-overflow diagnostic and `sys.exit(1)`; otherwise decrement
`reg[SP]` and write `reg[operand_a]` (read after the decrement) to RAM at
the new `reg[SP]`. -/
def handle_PUSH (s : CPU) (operand_a : Int) : Res :=
  liftE s (pyGet s.reg SP) fun sp =>
  if sp - 1 < s.end_of_stack then
    .err (printOut s pushOverflowMsg) (.systemExit 1)
  else
    liftE s (pySet s.reg SP (sp - 1)) fun reg1 =>
    liftE { s with reg := reg1 } (pyGet reg1 operand_a) fun value_in_register =>
    liftE { s with reg := reg1 } (pySet s.ram (sp - 1) value_in_register) fun ram1 =>
    .ok { s with reg := reg1, ram := ram1 }

/-- `handle_POP`: if `reg[SP] < 0xF4`, copy `ram[reg[SP]]` into
`reg[operand_a]` and then increment `reg[SP]` (re-reading it, which
matters when `operand_a = 7`); otherwise print the stack-underflow
diagnostic and `sys.exit(1)`. -/
def handle_POP (s : CPU) (operand_a : Int) : Res :=
  liftE s (pyGet s.reg SP) fun sp =>
  if sp < 0xF4 then
    liftE s (pyGet s.ram sp) fun value_in_stack_pointer_register =>
    liftE s (pySet s.reg operand_a value_in_stack_pointer_register) fun reg1 =>
    liftE { s with reg := reg1 } (pyGet reg1 SP) fun sp1 =>
    liftE { s with reg := reg1 } (pySet reg1 SP (sp1 + 1)) fun reg2 =>
    .ok { s with reg := reg2 }
  else
    .err (printOut s popUnderflowMsg) (.systemExit 1)

/-- `handle_JUMP`: `pc = reg[operand_a]`. -/
def handle_JUMP (s : CPU) (operand_a : Int) : Res :=
  liftE s (pyGet s.reg operand_a) fun address_to_jump_to =>
  .ok { s with pc := address_to_jump_to }

/-- `handle_CALL`: decrement `reg[SP]`, store `pc + 2` at the new
`reg[SP]`, then set `pc` to `reg[operand_a]` (read after the decrement,
which matters when `operand_a = 7`). -/
def handle_CALL (s : CPU) (operand_a : Int) : Res :=
  liftE s (pyGet s.reg SP) fun sp =>
  liftE s (pySet s.reg SP (sp - 1)) fun reg1 =>
  liftE { s with reg := reg1 } (pySet s.ram (sp - 1) (s.pc + 2)) fun ram1 =>
  liftE { s with reg := reg1, ram := ram1 } (pyGet reg1 operand_a) fun target =>
  .ok { s with reg := reg1, ram := ram1, pc := target }

/-- `handle_RET`: `pc = ram[reg[SP]]`, then increment `reg[SP]`. -/
def handle_RET (s : CPU) : Res :=
  liftE s (pyGet s.reg SP) fun sp =>
  liftE s (pyGet s.ram sp) fun ret_addr =>
  liftE { s with pc := ret_addr } (pySet s.reg SP (sp + 1)) fun reg1 =>
  .ok { s with pc := ret_addr, reg := reg1 }

/-- `handle_ST`: write `reg[operand_b]` to RAM at address `reg[operand_a]`. -/
def handle_ST (s : CPU) (operand_a operand_b : Int) : Res :=
  liftE s (pyGet s.reg operand_b) fun v =>
  liftE s (pyGet s.reg operand_a) fun addr =>
  liftE s (pySet s.ram addr v) fun ram1 =>
  .ok { s with ram := ram1 }

/-- `handle_JEQ`: if `fl == E` jump to `reg[operand_a]`, else `pc += 2`. -/
def handle_JEQ (s : CPU) (operand_a : Int) : Res :=
  if s.fl = E then
    liftE s (pyGet s.reg operand_a) fun target =>
    .ok { s with pc := target }
  else
    .ok { s with pc := s.pc + 2 }

/-- `handle_JNE`: if `fl != E` jump to `reg[operand_a]`, else `pc += 2`. -/
def handle_JNE (s : CPU) (operand_a : Int) : Res :=
  if s.fl ≠ E then
    liftE s (pyGet s.reg operand_a) fun target =>
    .ok { s with pc := target }
  else
    .ok { s with pc := s.pc + 2 }

/-! ## Decoder / dispatcher (lines 117-180 of cpu.py) -/

/-- `number_of_operands = (IR >> 6) & 0b11`.  Euclidean `/` and `%` agree
with Python floor shift and two-complement masking on every integer. -/
def number_of_operands (IR : Int) : Int := (IR / 64) % 4

/-- `sets_pc = (IR >> 4) & 0b0001`. -/
def sets_pc (IR : Int) : Int := (IR / 16) % 2

/-- A branchtable entry; Python calls the handler with 0, 1 or 2 operand
arguments depending on `number_of_operands`, so arity is part of the
entry. -/
inductive Handler where
  | h0 (f : CPU → Res)
  | h1 (f : CPU → Int → Res)
  | h2 (f : CPU → Int → Int → Res)

/-- The opcode → handler dictionary built on every call to
`execute_instruction` (lines 121-136). -/
def branchtable (IR : Int) : Option Handler :=
  if IR = LDI then some (.h2 handle_LDI)
  else if IR = PRN then some (.h1 handle_PRN)
  else if IR = HLT then some (.h0 handle_HLT)
  else if IR = ADD then some (.h2 handle_ALU)
  else if IR = MUL then some (.h2 handle_ALU)
  else if IR = PUSH then some (.h1 handle_PUSH)
  else if IR = POP then some (.h1 handle_POP)
  else if IR = JMP then some (.h1 handle_JUMP)
  else if IR = CALL then some (.h1 handle_CALL)
  else if IR = RET then some (.h0 handle_RET)
  else if IR = ST then some (.h2 handle_ST)
  else if IR = CMP then some (.h2 handle_ALU)
  else if IR = JEQ then some (.h1 handle_JEQ)
  else if IR = JNE then some (.h1 handle_JNE)
  else none

/-- Bitwise AND as Python computes `self.reg[5] & self.reg[6]`; in every
reachable state both registers hold non-negative byte values, for which
`Nat` AND is exact. -/
def pyAnd (a b : Int) : Int := Int.ofNat (a.toNat &&& b.toNat)

/-- One raw push of the interrupt state save (lines 152-156): decrement
`reg[SP]`, then write `v` at the new `reg[SP]`. -/
def rawPush (s : CPU) (v : Int) : Res :=
  liftE s (pyGet s.reg SP) fun sp =>
  liftE s (pySet s.reg SP (sp - 1)) fun reg1 =>
  liftE { s with reg := reg1 } (pySet s.ram (sp - 1) v) fun ram1 =>
  .ok { s with reg := reg1, ram := ram1 }

/-- The inner `for i in range(7)` of the state save (lines 158-160): for
each register index in the list, decrement `reg[SP]` and push `reg[i]`
(read after the decrement). -/
def pushRegsGo (s : CPU) : List Nat → Res
  | [] => .ok s
  | i :: rest =>
    liftE s (pyGet s.reg SP) fun sp =>
    liftE s (pySet s.reg SP (sp - 1)) fun reg1 =>
    liftE { s with reg := reg1 } (pyGet reg1 (Int.ofNat i)) fun v =>
    liftE { s with reg := reg1 } (pySet s.ram (sp - 1) v) fun ram1 =>
    pushRegsGo { s with reg := reg1, ram := ram1 } rest

/-- The `for i in range(8)` scan over `masked_interrupts` (lines 146-163):
at the first set bit, clear `reg[5]` and `reg[6]`, push `pc`, `fl` and
registers 0-6, and stop scanning (`break`); `(masked >> i) & 1` is
`masked / 2 ^ i % 2` with Euclidean division. -/
def interruptScanGo (s : CPU) (masked : Int) : List Nat → Res
  | [] => .ok s
  | i :: rest =>
    if (masked / (2 : Int) ^ i) % 2 = 1 then
      liftE s (pySet s.reg 5 0) fun regA =>
      liftE { s with reg := regA } (pySet regA 6 0) fun regB =>
      (rawPush { s with reg := regB } s.pc).andThen fun s2 =>
      (rawPush s2 s2.fl).andThen fun s3 =>
      pushRegsGo s3 [0, 1, 2, 3, 4, 5, 6]
    else interruptScanGo s masked rest

/-- Lines 144-163: compute `masked_interrupts = reg[5] & reg[6]` and run
the bit scan. -/
def interruptCheck (s : CPU) : Res :=
  liftE s (pyGet s.reg 5) fun r5 =>
  liftE s (pyGet s.reg 6) fun r6 =>
  interruptScanGo s (pyAnd r5 r6) [0, 1, 2, 3, 4, 5, 6, 7]

/-- Lines 167-176: look `IR` up in the branchtable; if absent, print the
unknown-instruction diagnostic and set the halted flag; otherwise call the
handler with as many operands as `number_of_operands` dictates. -/
def dispatchIR (s : CPU) (IR operand_a operand_b : Int) : Res :=
  match branchtable IR with
  | none => .ok { printOut s ("Unknown instruction " ++ toString IR) with halted := true }
  | some h =>
    if number_of_operands IR = 2 then
      match h with
      | .h2 f => f s operand_a operand_b
      | .h1 _ => .err s (.typeError "wrong number of arguments")
      | .h0 _ => .err s (.typeError "wrong number of arguments")
    else if number_of_operands IR = 1 then
      match h with
      | .h1 f => f s operand_a
      | .h2 _ => .err s (.typeError "wrong number of arguments")
      | .h0 _ => .err s (.typeError "wrong number of arguments")
    else
      match h with
      | .h0 f => f s
      | .h1 _ => .err s (.typeError "wrong number of arguments")
      | .h2 _ => .err s (.typeError "wrong number of arguments")

/-- Lines 144-180 of `execute_instruction`, the part after the timer
guard: interrupt scan, dispatch, and the `if sets_pc == 0` program-counter
advance. -/
def execute_instruction_body (s : CPU) (IR operand_a operand_b : Int) : Res :=
  (interruptCheck s).andThen fun s1 =>
  (dispatchIR s1 IR operand_a operand_b).andThen fun s2 =>
  if sets_pc IR = 0 then .ok { s2 with pc := s2.pc + number_of_operands IR + 1 }
  else .ok s2

/-- `CPU.execute_instruction` (lines 117-180).  `curr_time` stands for
`datetime.now()`.  Line 140 compares the `timedelta`
`curr_time - last_saved_time` against the `int` 1; if that comparison
returned a boolean, a `True` result would update `last_saved_time` and set
`reg[6] = 0b10000000` before the body runs. -/
def execute_instruction (s : CPU) (curr_time IR operand_a operand_b : Int) : Res :=
  match pyGE (PyVal.timedelta (curr_time - s.last_saved_time)) (PyVal.int 1) with
  | .error e => .err s e
  | .ok timer_elapsed =>
    if timer_elapsed then
      liftE { s with last_saved_time := curr_time } (pySet s.reg 6 0b10000000) fun reg1 =>
      execute_instruction_body { s with last_saved_time := curr_time, reg := reg1 }
        IR operand_a operand_b
    else
      execute_instruction_body s IR operand_a operand_b

/-- One iteration of `CPU.run` (lines 110-115): fetch `IR`, `operand_a`,
`operand_b` at `pc`, `pc + 1`, `pc + 2`, then execute. -/
def step (s : CPU) (curr_time : Int) : Res :=
  liftE s (pyGet s.ram s.pc) fun IR =>
  liftE s (pyGet s.ram (s.pc + 1)) fun operand_a =>
  liftE s (pyGet s.ram (s.pc + 2)) fun operand_b =>
  execute_instruction s curr_time IR operand_a operand_b

/-! ## Basic lemmas about the Python list primitives -/

theorem pyIndex_ok {n : Nat} {i : Int} (h0 : 0 ≤ i) (h1 : i < (n : Int)) :
    pyIndex n i = .ok i.toNat := by
  unfold pyIndex
  rw [if_pos ⟨h0, h1⟩]

theorem pyGet_ok {l : List Int} {i : Int} (h0 : 0 ≤ i) (h1 : i < (l.length : Int)) :
    pyGet l i = .ok (l.getD i.toNat 0) := by
  unfold pyGet
  rw [pyIndex_ok h0 h1]

theorem pySet_ok {l : List Int} {i v : Int} (h0 : 0 ≤ i) (h1 : i < (l.length : Int)) :
    pySet l i v = .ok (l.set i.toNat v) := by
  unfold pySet
  rw [pyIndex_ok h0 h1]

theorem liftE_ok {α : Type} (s : CPU) (v : α) (f : α → Res) :
    liftE s (.ok v) f = f v := rfl

theorem toNat_five : (5 : Int).toNat = 5 := rfl

theorem toNat_six : (6 : Int).toNat = 6 := rfl

theorem toNat_seven : (7 : Int).toNat = 7 := rfl

theorem getD_set_self : ∀ (l : List Int) (j : Nat) (v : Int), j < l.length →
    (l.set j v).getD j 0 = v := by
  intro l
  induction l with
  | nil => intro j v h; exact absurd h (by simp)
  | cons x xs ih =>
    intro j v h
    cases j with
    | zero => rfl
    | succ j => exact ih j v (by simpa using h)

theorem getD_set_ne : ∀ (l : List Int) (i j : Nat) (v : Int), i ≠ j →
    (l.set i v).getD j 0 = l.getD j 0 := by
  intro l
  induction l with
  | nil => intro i j v _; rfl
  | cons x xs ih =>
    intro i j v h
    cases i with
    | zero =>
      cases j with
      | zero => exact absurd rfl h
      | succ j => rfl
    | succ i =>
      cases j with
      | zero => rfl
      | succ j => exact ih i j v (by omega)

/-! ## Behaviour of the stack handlers on well-formed states -/

theorem handle_PUSH_overflow (s : CPU) (r : Int) (hreg : s.reg.length = 8)
    (hov : regVal s 7 - 1 < s.end_of_stack) :
    handle_PUSH s r = .err (printOut s pushOverflowMsg) (.systemExit 1) := by
  simp only [regVal] at hov
  unfold handle_PUSH SP
  rw [pyGet_ok (by norm_num) (by rw [hreg]; norm_num)]
  simp only [liftE_ok, toNat_seven]
  rw [if_pos hov]

theorem handle_PUSH_ok (s : CPU) (r : Int)
    (hram : s.ram.length = 256) (hreg : s.reg.length = 8)
    (hr0 : 0 ≤ r) (hr8 : r < 8)
    (hof : s.end_of_stack ≤ regVal s 7 - 1)
    (hlo : 0 ≤ regVal s 7 - 1) (hhi : regVal s 7 - 1 < 256) :
    handle_PUSH s r = .ok { s with
      reg := s.reg.set 7 (regVal s 7 - 1)
      ram := s.ram.set (regVal s 7 - 1).toNat
        ((s.reg.set 7 (regVal s 7 - 1)).getD r.toNat 0) } := by
  simp only [regVal] at hof hlo hhi ⊢
  unfold handle_PUSH SP
  rw [pyGet_ok (by norm_num) (by rw [hreg]; norm_num)]
  simp only [liftE_ok, toNat_seven]
  rw [if_neg (not_lt.mpr hof)]
  rw [pySet_ok (by norm_num) (by rw [hreg]; norm_num)]
  simp only [liftE_ok, toNat_seven]
  rw [pyGet_ok hr0 (by rw [List.length_set, hreg]; omega)]
  simp only [liftE_ok]
  rw [pySet_ok hlo (by rw [hram]; omega)]
  simp only [liftE_ok]

theorem handle_POP_underflow (s : CPU) (r : Int) (hreg : s.reg.length = 8)
    (hun : 0xF4 ≤ regVal s 7) :
    handle_POP s r = .err (printOut s popUnderflowMsg) (.systemExit 1) := by
  simp only [regVal] at hun
  unfold handle_POP SP
  rw [pyGet_ok (by norm_num) (by rw [hreg]; norm_num)]
  simp only [liftE_ok, toNat_seven]
  rw [if_neg (not_lt.mpr hun)]

theorem handle_POP_ok (s : CPU) (r : Int)
    (hram : s.ram.length = 256) (hreg : s.reg.length = 8)
    (hr0 : 0 ≤ r) (hr8 : r < 8)
    (hsp0 : 0 ≤ regVal s 7) (hsp : regVal s 7 < 0xF4) :
    handle_POP s r = .ok { s with
      reg := (s.reg.set r.toNat (memVal s (regVal s 7).toNat)).set 7
        ((s.reg.set r.toNat (memVal s (regVal s 7).toNat)).getD 7 0 + 1) } := by
  simp only [regVal, memVal] at hsp0 hsp ⊢
  unfold handle_POP SP
  rw [pyGet_ok (by norm_num) (by rw [hreg]; norm_num)]
  simp only [liftE_ok, toNat_seven]
  rw [if_pos hsp]
  rw [pyGet_ok hsp0 (by rw [hram]; omega)]
  simp only [liftE_ok]
  rw [pySet_ok hr0 (by rw [hreg]; omega)]
  simp only [liftE_ok]
  rw [pyGet_ok (by norm_num) (by rw [List.length_set, hreg]; norm_num)]
  simp only [liftE_ok, toNat_seven]
  rw [pySet_ok (by norm_num) (by rw [List.length_set, hreg]; norm_num)]
  simp only [liftE_ok, toNat_seven]

theorem handle_CALL_ok (s : CPU) (a : Int)
    (hram : s.ram.length = 256) (hreg : s.reg.length = 8)
    (ha0 : 0 ≤ a) (ha8 : a < 8)
    (hlo : 0 ≤ regVal s 7 - 1) (hhi : regVal s 7 - 1 < 256) :
    handle_CALL s a = .ok { s with
      reg := s.reg.set 7 (regVal s 7 - 1)
      ram := s.ram.set (regVal s 7 - 1).toNat (s.pc + 2)
      pc := (s.reg.set 7 (regVal s 7 - 1)).getD a.toNat 0 } := by
  simp only [regVal] at hlo hhi ⊢
  unfold handle_CALL SP
  rw [pyGet_ok (by norm_num) (by rw [hreg]; norm_num)]
  simp only [liftE_ok, toNat_seven]
  rw [pySet_ok (by norm_num) (by rw [hreg]; norm_num)]
  simp only [liftE_ok, toNat_seven]
  rw [pySet_ok hlo (by rw [hram]; omega)]
  simp only [liftE_ok]
  rw [pyGet_ok ha0 (by rw [List.length_set, hreg]; omega)]
  simp only [liftE_ok]

theorem handle_RET_ok (t : CPU)
    (hram : t.ram.length = 256) (hreg : t.reg.length = 8)
    (hsp0 : 0 ≤ regVal t 7) (hsp : regVal t 7 < 256) :
    handle_RET t = .ok { t with
      pc := memVal t (regVal t 7).toNat
      reg := t.reg.set 7 (regVal t 7 + 1) } := by
  simp only [regVal, memVal] at hsp0 hsp ⊢
  unfold handle_RET SP
  rw [pyGet_ok (by norm_num) (by rw [hreg]; norm_num)]
  simp only [liftE_ok, toNat_seven]
  rw [pyGet_ok hsp0 (by rw [hram]; omega)]
  simp only [liftE_ok]
  rw [pySet_ok (by norm_num) (by rw [hreg]; norm_num)]
  simp only [liftE_ok, toNat_seven]

/-! ## Behaviour of the ALU on well-formed states -/

theorem alu_ADD_ok (s : CPU) (a b : Int) (hreg : s.reg.length = 8)
    (ha0 : 0 ≤ a) (ha8 : a < 8) (hb0 : 0 ≤ b) (hb8 : b < 8) :
    alu s ADD a b
      = .ok { s with reg := s.reg.set a.toNat (regVal s a.toNat + regVal s b.toNat) } := by
  simp only [regVal]
  unfold alu
  rw [if_pos rfl]
  rw [pyGet_ok ha0 (by rw [hreg]; omega)]
  simp only [liftE_ok]
  rw [pyGet_ok hb0 (by rw [hreg]; omega)]
  simp only [liftE_ok]
  rw [pySet_ok ha0 (by rw [hreg]; omega)]
  simp only [liftE_ok]

theorem alu_MUL_ok (s : CPU) (a b : Int) (hreg : s.reg.length = 8)
    (ha0 : 0 ≤ a) (ha8 : a < 8) (hb0 : 0 ≤ b) (hb8 : b < 8) :
    alu s MUL a b
      = .ok { s with reg := s.reg.set a.toNat (regVal s a.toNat * regVal s b.toNat) } := by
  simp only [regVal]
  unfold alu
  rw [if_neg (by decide), if_pos rfl]
  rw [pyGet_ok ha0 (by rw [hreg]; omega)]
  simp only [liftE_ok]
  rw [pyGet_ok hb0 (by rw [hreg]; omega)]
  simp only [liftE_ok]
  rw [pySet_ok ha0 (by rw [hreg]; omega)]
  simp only [liftE_ok]

theorem alu_CMP_ok (s : CPU) (a b : Int) (hreg : s.reg.length = 8)
    (ha0 : 0 ≤ a) (ha8 : a < 8) (hb0 : 0 ≤ b) (hb8 : b < 8) :
    alu s CMP a b = .ok { s with fl :=
      (if regVal s a.toNat = regVal s b.toNat then E
       else if regVal s a.toNat < regVal s b.toNat then L else G) } := by
  simp only [regVal]
  unfold alu
  rw [if_neg (by decide), if_neg (by decide), if_pos rfl]
  rw [pyGet_ok ha0 (by rw [hreg]; omega)]
  simp only [liftE_ok]
  rw [pyGet_ok hb0 (by rw [hreg]; omega)]
  simp only [liftE_ok]
  split
  · rfl
  · split
    · rfl
    · rfl

/-! ## Claim C2: the interrupt-timer guard poisons every instruction cycle -/

/-- C2: every call to `execute_instruction` first evaluates the interrupt
timer guard (line 140), which compares the `timedelta`
`curr_time - last_saved_time` against the `int` 1; Python raises
`TypeError` for that mixed comparison, so the call fails with the state
untouched, before any instruction handler is dispatched. -/
theorem C2_timer_guard_type_error (s : CPU) (curr_time IR operand_a operand_b : Int) :
    execute_instruction s curr_time IR operand_a operand_b
      = .err s (.typeError timedeltaGeIntMsg) := rfl

/-! ## Claim C1: ADD and MUL are exact, not reduced modulo 256 -/

/-- State with 8-bit register contents `reg[0] = 200`, `reg[1] = 100`. -/
def cexState : CPU := { initState with reg := [200, 100, 0, 0, 0, 0, 0, 0xF4] }

/-- C1 counterexample: with `reg[0] = 200` and `reg[1] = 100` (both valid
8-bit values), `ADD` leaves `reg[0] = 300`, not `(200 + 100) % 256 = 44`
as the claim states. -/
theorem C1_counterexample :
    alu cexState ADD 0 1 = .ok { cexState with reg := [300, 100, 0, 0, 0, 0, 0, 0xF4] }
  ∧ alu cexState ADD 0 1
      ≠ .ok { cexState with reg := [(200 + 100) % 256, 100, 0, 0, 0, 0, 0, 0xF4] } := by
  constructor
  · decide
  · decide

/-- C1 (amended): for every pair of register indices, the ALU `ADD`
operation leaves `reg[a]` equal to the exact integer sum
`reg[a] + reg[b]` with no modulo-256 reduction, and `MUL` leaves `reg[a]`
equal to the exact product; the mod-256 value claimed originally is
obtained only when the exact result is already below 256. -/
theorem C1_alu_add_mul_exact (s : CPU) (a b : Int) (hreg : s.reg.length = 8)
    (ha0 : 0 ≤ a) (ha8 : a < 8) (hb0 : 0 ≤ b) (hb8 : b < 8) :
    alu s ADD a b
      = .ok { s with reg := s.reg.set a.toNat (regVal s a.toNat + regVal s b.toNat) }
  ∧ alu s MUL a b
      = .ok { s with reg := s.reg.set a.toNat (regVal s a.toNat * regVal s b.toNat) } :=
  ⟨alu_ADD_ok s a b hreg ha0 ha8 hb0 hb8, alu_MUL_ok s a b hreg ha0 ha8 hb0 hb8⟩

/-- Witness for C1 at registers 0 and 1 of the freshly constructed CPU. -/
theorem C1_alu_add_mul_exact_witness :
    (initState.reg.length = 8 ∧ (0 : Int) ≤ 0 ∧ (0 : Int) < 8
      ∧ (0 : Int) ≤ 1 ∧ (1 : Int) < 8)
  ∧ (alu initState ADD 0 1
      = .ok { initState with
          reg := initState.reg.set (0 : Int).toNat
            (regVal initState (0 : Int).toNat + regVal initState (1 : Int).toNat) }
    ∧ alu initState MUL 0 1
      = .ok { initState with
          reg := initState.reg.set (0 : Int).toNat
            (regVal initState (0 : Int).toNat * regVal initState (1 : Int).toNat) }) :=
  ⟨by decide,
   C1_alu_add_mul_exact initState 0 1 (by decide) (by decide) (by decide) (by decide) (by decide)⟩

/-! ## Claim C3: PUSH boundary behaviour -/

/-- C3: if `SP - 1` would cross the end-of-stack boundary, PUSH fails with
the stack-overflow diagnostic and `sys.exit(1)`, leaving RAM and the
register file (hence SP) unchanged; otherwise it first decrements SP and
then writes the register value (read after the decrement) to RAM at the
new SP. -/
theorem C3_push_boundary (s : CPU) (r : Int)
    (hram : s.ram.length = 256) (hreg : s.reg.length = 8)
    (hr0 : 0 ≤ r) (hr8 : r < 8)
    (hlo : 0 ≤ regVal s 7 - 1) (hhi : regVal s 7 - 1 < 256) :
    (regVal s 7 - 1 < s.end_of_stack →
      handle_PUSH s r = .err (printOut s pushOverflowMsg) (.systemExit 1))
  ∧ (s.end_of_stack ≤ regVal s 7 - 1 →
      handle_PUSH s r = .ok { s with
        reg := s.reg.set 7 (regVal s 7 - 1)
        ram := s.ram.set (regVal s 7 - 1).toNat
          ((s.reg.set 7 (regVal s 7 - 1)).getD r.toNat 0) }) :=
  ⟨fun hov => handle_PUSH_overflow s r hreg hov,
   fun hof => handle_PUSH_ok s r hram hreg hr0 hr8 hof hlo hhi⟩

/-- Witness for C3 on the freshly constructed CPU (SP = 0xF4,
end_of_stack = 0), pushing register 0. -/
theorem C3_push_boundary_witness :
    (initState.ram.length = 256 ∧ initState.reg.length = 8
      ∧ (0 : Int) ≤ 0 ∧ (0 : Int) < 8
      ∧ 0 ≤ regVal initState 7 - 1 ∧ regVal initState 7 - 1 < 256)
  ∧ initState.end_of_stack ≤ regVal initState 7 - 1
  ∧ handle_PUSH initState 0 = .ok { initState with
      reg := initState.reg.set 7 (regVal initState 7 - 1)
      ram := initState.ram.set (regVal initState 7 - 1).toNat
        ((initState.reg.set 7 (regVal initState 7 - 1)).getD (0 : Int).toNat 0) } :=
  ⟨by decide, by decide,
   (C3_push_boundary initState 0 (by decide) (by decide) (by decide) (by decide)
     (by decide) (by decide)).2 (by decide)⟩

/-! ## Claim C7: conditional jumps JEQ and JNE -/

/-- C7: `JEQ` sets `pc` to the target register value exactly when the
flags register equals `E` and otherwise advances `pc` by 2; `JNE` is
symmetric, branching exactly when the flags register differs from `E`;
and both opcodes have the `sets_pc` bit set, so the dispatcher applies no
additional `pc` advance in either branch. -/
theorem C7_jeq_jne (s : CPU) (a : Int) (hreg : s.reg.length = 8)
    (ha0 : 0 ≤ a) (ha8 : a < 8) :
    (s.fl = E → handle_JEQ s a = .ok { s with pc := regVal s a.toNat })
  ∧ (s.fl ≠ E → handle_JEQ s a = .ok { s with pc := s.pc + 2 })
  ∧ (s.fl ≠ E → handle_JNE s a = .ok { s with pc := regVal s a.toNat })
  ∧ (s.fl = E → handle_JNE s a = .ok { s with pc := s.pc + 2 })
  ∧ sets_pc JEQ = 1 ∧ sets_pc JNE = 1 := by
  refine ⟨?_, ?_, ?_, ?_, by decide, by decide⟩
  · intro h
    unfold handle_JEQ
    rw [if_pos h, pyGet_ok ha0 (by rw [hreg]; omega)]
    simp only [liftE_ok, regVal]
  · intro h
    unfold handle_JEQ
    rw [if_neg h]
  · intro h
    unfold handle_JNE
    rw [if_pos h, pyGet_ok ha0 (by rw [hreg]; omega)]
    simp only [liftE_ok, regVal]
  · intro h
    unfold handle_JNE
    rw [if_neg (not_not_intro h)]

/-- Witness for C7 in a state whose flags register holds `E`. -/
theorem C7_jeq_jne_witness :
    ({ initState with fl := E }.reg.length = 8 ∧ (0 : Int) ≤ 0 ∧ (0 : Int) < 8)
  ∧ (({ initState with fl := E }.fl = E →
        handle_JEQ { initState with fl := E } 0
          = .ok { { initState with fl := E } with
              pc := regVal { initState with fl := E } (0 : Int).toNat })
    ∧ ({ initState with fl := E }.fl ≠ E →
        handle_JEQ { initState with fl := E } 0
          = .ok { { initState with fl := E } with
              pc := { initState with fl := E }.pc + 2 })
    ∧ ({ initState with fl := E }.fl ≠ E →
        handle_JNE { initState with fl := E } 0
          = .ok { { initState with fl := E } with
              pc := regVal { initState with fl := E } (0 : Int).toNat })
    ∧ ({ initState with fl := E }.fl = E →
        handle_JNE { initState with fl := E } 0
          = .ok { { initState with fl := E } with
              pc := { initState with fl := E }.pc + 2 })
    ∧ sets_pc JEQ = 1 ∧ sets_pc JNE = 1) :=
  ⟨by decide, C7_jeq_jne { initState with fl := E } 0 (by decide) (by decide) (by decide)⟩

/-! ## Claim C8: CMP sets exactly one flag, consistent with comparison -/

theorem E_ne_L : E ≠ L := by decide

theorem E_ne_G : E ≠ G := by decide

theorem L_ne_G : L ≠ G := by decide

/-- C8: for all register contents in `[0, 256)`, the ALU `CMP` operation
sets the flags register to exactly one of `E`, `L`, `G`, and the one it
sets agrees with integer comparison of the two register values; nothing
else in the state changes. -/
theorem C8_cmp_flags (s : CPU) (a b : Int) (hreg : s.reg.length = 8)
    (ha0 : 0 ≤ a) (ha8 : a < 8) (hb0 : 0 ≤ b) (hb8 : b < 8)
    (hva0 : 0 ≤ regVal s a.toNat) (hva : regVal s a.toNat < 256)
    (hvb0 : 0 ≤ regVal s b.toNat) (hvb : regVal s b.toNat < 256) :
    ∃ s1, alu s CMP a b = .ok s1
      ∧ s1.reg = s.reg ∧ s1.ram = s.ram ∧ s1.pc = s.pc ∧ s1.halted = s.halted
      ∧ (s1.fl = E ∨ s1.fl = L ∨ s1.fl = G)
      ∧ (s1.fl = E ↔ regVal s a.toNat = regVal s b.toNat)
      ∧ (s1.fl = L ↔ regVal s a.toNat < regVal s b.toNat)
      ∧ (s1.fl = G ↔ regVal s b.toNat < regVal s a.toNat) := by
  rcases lt_trichotomy (regVal s a.toNat) (regVal s b.toNat) with h | h | h
  · refine ⟨{ s with fl := L }, ?_, rfl, rfl, rfl, rfl, Or.inr (Or.inl rfl), ?_, ?_, ?_⟩
    · rw [alu_CMP_ok s a b hreg ha0 ha8 hb0 hb8, if_neg (ne_of_lt h), if_pos h]
    · exact iff_of_false (Ne.symm E_ne_L) (ne_of_lt h)
    · exact iff_of_true rfl h
    · exact iff_of_false L_ne_G (by omega)
  · refine ⟨{ s with fl := E }, ?_, rfl, rfl, rfl, rfl, Or.inl rfl, ?_, ?_, ?_⟩
    · rw [alu_CMP_ok s a b hreg ha0 ha8 hb0 hb8, if_pos h]
    · exact iff_of_true rfl h
    · exact iff_of_false E_ne_L (by omega)
    · exact iff_of_false E_ne_G (by omega)
  · refine ⟨{ s with fl := G }, ?_, rfl, rfl, rfl, rfl, Or.inr (Or.inr rfl), ?_, ?_, ?_⟩
    · rw [alu_CMP_ok s a b hreg ha0 ha8 hb0 hb8, if_neg (ne_of_gt h),
        if_neg (not_lt.mpr (le_of_lt h))]
    · exact iff_of_false (Ne.symm E_ne_G) (ne_of_gt h)
    · exact iff_of_false (Ne.symm L_ne_G) (by omega)
    · exact iff_of_true rfl h

/-- Witness for C8 comparing registers 0 and 7 of the fresh CPU
(values 0 and 0xF4). -/
theorem C8_cmp_flags_witness :
    (initState.reg.length = 8 ∧ (0 : Int) ≤ 0 ∧ (0 : Int) < 8
      ∧ (0 : Int) ≤ 7 ∧ (7 : Int) < 8
      ∧ 0 ≤ regVal initState (0 : Int).toNat ∧ regVal initState (0 : Int).toNat < 256
      ∧ 0 ≤ regVal initState (7 : Int).toNat ∧ regVal initState (7 : Int).toNat < 256)
  ∧ (∃ s1, alu initState CMP 0 7 = .ok s1
      ∧ s1.reg = initState.reg ∧ s1.ram = initState.ram ∧ s1.pc = initState.pc
      ∧ s1.halted = initState.halted
      ∧ (s1.fl = E ∨ s1.fl = L ∨ s1.fl = G)
      ∧ (s1.fl = E ↔ regVal initState (0 : Int).toNat = regVal initState (7 : Int).toNat)
      ∧ (s1.fl = L ↔ regVal initState (0 : Int).toNat < regVal initState (7 : Int).toNat)
      ∧ (s1.fl = G ↔ regVal initState (7 : Int).toNat < regVal initState (0 : Int).toNat)) :=
  ⟨by decide,
   C8_cmp_flags initState 0 7 (by decide) (by decide) (by decide) (by decide) (by decide)
     (by decide) (by decide) (by decide) (by decide)⟩

/-! ## Claim C4: POP boundary behaviour -/

/-- The register file after a successful POP into register `r`: the
destination write followed by the SP increment (re-reading `reg[SP]`, so
a POP into register 7 increments the freshly written value). -/
def popRegs (s : CPU) (r : Int) : List Int :=
  (s.reg.set r.toNat (memVal s (regVal s 7).toNat)).set 7
    ((s.reg.set r.toNat (memVal s (regVal s 7).toNat)).getD 7 0 + 1)

/-- C4: if SP is at or above the initial stack-top value 0xF4, POP fails
with the stack-underflow diagnostic and `sys.exit(1)`, leaving the
register file (hence the destination register and SP) and RAM unchanged;
otherwise POP reads RAM at SP into the destination register and then
increments SP by 1. -/
theorem C4_pop_boundary (s : CPU) (r : Int)
    (hram : s.ram.length = 256) (hreg : s.reg.length = 8)
    (hr0 : 0 ≤ r) (hr8 : r < 8) (hsp0 : 0 ≤ regVal s 7) :
    (0xF4 ≤ regVal s 7 →
      handle_POP s r = .err (printOut s popUnderflowMsg) (.systemExit 1))
  ∧ (regVal s 7 < 0xF4 →
      handle_POP s r = .ok { s with reg := popRegs s r }
      ∧ (r ≠ 7 → (popRegs s r).getD r.toNat 0 = memVal s (regVal s 7).toNat
               ∧ (popRegs s r).getD 7 0 = regVal s 7 + 1)
      ∧ (r = 7 → (popRegs s r).getD 7 0 = memVal s (regVal s 7).toNat + 1)) := by
  constructor
  · exact fun hun => handle_POP_underflow s r hreg hun
  · intro hsp
    refine ⟨?_, ?_, ?_⟩
    · rw [handle_POP_ok s r hram hreg hr0 hr8 hsp0 hsp]
      rfl
    · intro hne
      have hrt : r.toNat ≠ 7 := by omega
      constructor
      · simp only [popRegs]
        rw [getD_set_ne _ 7 r.toNat _ (Ne.symm hrt),
          getD_set_self _ r.toNat _ (by rw [hreg]; omega)]
      · simp only [popRegs]
        rw [getD_set_self _ 7 _ (by rw [List.length_set, hreg]; omega),
          getD_set_ne _ r.toNat 7 _ hrt]
        rfl
    · intro h7
      subst h7
      simp only [popRegs, toNat_seven]
      rw [getD_set_self _ 7 _ (by rw [List.length_set, hreg]; omega),
        getD_set_self _ 7 _ (by rw [hreg]; omega)]

/-- State with SP already moved down to 243 and the value 55 stored at
RAM address 243, ready for a POP into register 0. -/
def popState : CPU := { initState with
  reg := (List.replicate 8 0).set 7 243
  ram := (List.replicate 256 0).set 243 55 }

/-- Witness for C4 popping into register 0 from `popState`. -/
theorem C4_pop_boundary_witness :
    (popState.ram.length = 256 ∧ popState.reg.length = 8
      ∧ (0 : Int) ≤ 0 ∧ (0 : Int) < 8 ∧ 0 ≤ regVal popState 7)
  ∧ ((0xF4 ≤ regVal popState 7 →
        handle_POP popState 0 = .err (printOut popState popUnderflowMsg) (.systemExit 1))
    ∧ (regVal popState 7 < 0xF4 →
        handle_POP popState 0 = .ok { popState with reg := popRegs popState 0 }
        ∧ ((0 : Int) ≠ 7 →
            (popRegs popState 0).getD (0 : Int).toNat 0
              = memVal popState (regVal popState 7).toNat
          ∧ (popRegs popState 0).getD 7 0 = regVal popState 7 + 1)
        ∧ ((0 : Int) = 7 →
            (popRegs popState 0).getD 7 0
              = memVal popState (regVal popState 7).toNat + 1))) :=
  ⟨by decide,
   C4_pop_boundary popState 0 (by decide) (by decide) (by decide) (by decide) (by decide)⟩

/-! ## Claim C5: CALL followed by RET returns to the instruction after the CALL -/

/-- C5: a CALL executed at address `p = s.pc` (with the push staying
inside RAM) stores the return address `p + 2` at the decremented SP, and
any later RET executed in a state that still has that SP value and that
return slot — in particular the state immediately after the CALL, or
after any balanced sequence of pushes and pops — sets `pc` to exactly
`p + 2`, the address just after the two-byte CALL instruction, and
restores SP. -/
theorem C5_call_ret (s : CPU) (a : Int)
    (hram : s.ram.length = 256) (hreg : s.reg.length = 8)
    (ha0 : 0 ≤ a) (ha8 : a < 8)
    (hlo : 0 ≤ regVal s 7 - 1) (hhi : regVal s 7 - 1 < 256) :
    ∃ s1, handle_CALL s a = .ok s1
      ∧ regVal s1 7 = regVal s 7 - 1
      ∧ memVal s1 (regVal s 7 - 1).toNat = s.pc + 2
      ∧ ∀ t, t.ram.length = 256 → t.reg.length = 8 →
          regVal t 7 = regVal s 7 - 1 →
          memVal t (regVal t 7).toNat = s.pc + 2 →
          ∃ t1, handle_RET t = .ok t1 ∧ t1.pc = s.pc + 2 ∧ regVal t1 7 = regVal s 7 := by
  refine ⟨_, handle_CALL_ok s a hram hreg ha0 ha8 hlo hhi, ?_, ?_, ?_⟩
  · show (s.reg.set 7 (regVal s 7 - 1)).getD 7 0 = regVal s 7 - 1
    exact getD_set_self _ 7 _ (by rw [hreg]; omega)
  · show (s.ram.set (regVal s 7 - 1).toNat (s.pc + 2)).getD (regVal s 7 - 1).toNat 0
      = s.pc + 2
    exact getD_set_self _ _ _ (by rw [hram]; omega)
  · intro t htram htreg htsp htmem
    refine ⟨_, handle_RET_ok t htram htreg (by omega) (by omega), ?_, ?_⟩
    · show memVal t (regVal t 7).toNat = s.pc + 2
      exact htmem
    · show (t.reg.set 7 (regVal t 7 + 1)).getD 7 0 = regVal s 7
      rw [getD_set_self _ 7 _ (by rw [htreg]; omega)]
      omega

/-- Witness for C5: CALL through register 0 from the fresh CPU state,
followed by RET in the state the CALL produced. -/
theorem C5_call_ret_witness :
    (initState.ram.length = 256 ∧ initState.reg.length = 8
      ∧ (0 : Int) ≤ 0 ∧ (0 : Int) < 8
      ∧ 0 ≤ regVal initState 7 - 1 ∧ regVal initState 7 - 1 < 256)
  ∧ (∃ s1, handle_CALL initState 0 = .ok s1
      ∧ regVal s1 7 = regVal initState 7 - 1
      ∧ memVal s1 (regVal initState 7 - 1).toNat = initState.pc + 2
      ∧ ∀ t, t.ram.length = 256 → t.reg.length = 8 →
          regVal t 7 = regVal initState 7 - 1 →
          memVal t (regVal t 7).toNat = initState.pc + 2 →
          ∃ t1, handle_RET t = .ok t1 ∧ t1.pc = initState.pc + 2
            ∧ regVal t1 7 = regVal initState 7) :=
  ⟨by decide,
   C5_call_ret initState 0 (by decide) (by decide) (by decide) (by decide)
     (by decide) (by decide)⟩

/-! ## Claim C6: PUSH immediately followed by POP restores reg[r] and SP -/

/-- C6: for every register index `r` and every state in which the PUSH
stays inside the stack boundaries (it does not cross `end_of_stack`
below, and SP is at most its initial value 0xF4 so the following POP is
not an underflow), PUSH(r) immediately followed by POP(r) restores
`reg[r]` to its original value and leaves SP unchanged. -/
theorem C6_push_pop_roundtrip (s : CPU) (r : Int)
    (hram : s.ram.length = 256) (hreg : s.reg.length = 8)
    (hr0 : 0 ≤ r) (hr8 : r < 8)
    (heos : 0 ≤ s.end_of_stack)
    (hof : s.end_of_stack ≤ regVal s 7 - 1)
    (htop : regVal s 7 ≤ 0xF4) :
    ∃ s1 s2, handle_PUSH s r = .ok s1 ∧ handle_POP s1 r = .ok s2
      ∧ regVal s2 r.toNat = regVal s r.toNat ∧ regVal s2 7 = regVal s 7 := by
  have hlo : 0 ≤ regVal s 7 - 1 := by omega
  have hhi : regVal s 7 - 1 < 256 := by omega
  have hpush := handle_PUSH_ok s r hram hreg hr0 hr8 hof hlo hhi
  have e1 : regVal { s with
      reg := s.reg.set 7 (regVal s 7 - 1)
      ram := s.ram.set (regVal s 7 - 1).toNat
        ((s.reg.set 7 (regVal s 7 - 1)).getD r.toNat 0) } 7
      = regVal s 7 - 1 := by
    show (s.reg.set 7 (regVal s 7 - 1)).getD 7 0 = regVal s 7 - 1
    exact getD_set_self _ 7 _ (by rw [hreg]; omega)
  have hpop := handle_POP_ok { s with
      reg := s.reg.set 7 (regVal s 7 - 1)
      ram := s.ram.set (regVal s 7 - 1).toNat
        ((s.reg.set 7 (regVal s 7 - 1)).getD r.toNat 0) } r
    (by show (s.ram.set _ _).length = 256; rw [List.length_set]; exact hram)
    (by show (s.reg.set 7 _).length = 8; rw [List.length_set]; exact hreg)
    hr0 hr8
    (by rw [e1]; omega)
    (by rw [e1]; omega)
  rw [e1] at hpop
  have e2 : memVal { s with
      reg := s.reg.set 7 (regVal s 7 - 1)
      ram := s.ram.set (regVal s 7 - 1).toNat
        ((s.reg.set 7 (regVal s 7 - 1)).getD r.toNat 0) }
      (regVal s 7 - 1).toNat
      = (s.reg.set 7 (regVal s 7 - 1)).getD r.toNat 0 := by
    show (s.ram.set (regVal s 7 - 1).toNat _).getD (regVal s 7 - 1).toNat 0 = _
    exact getD_set_self _ _ _ (by rw [hram]; omega)
  rw [e2] at hpop
  refine ⟨_, _, hpush, hpop, ?_, ?_⟩ <;> simp only [regVal] <;>
    by_cases hrt : r.toNat = 7
  · rw [hrt]
    simp [getD_set_self, List.length_set, hreg]
  · have h7r : (7 : Nat) ≠ r.toNat := Ne.symm hrt
    have hrlt : r.toNat < 8 := by omega
    simp [getD_set_self, getD_set_ne, List.length_set, hreg, hrt, h7r, hrlt]
  · rw [hrt]
    simp [getD_set_self, List.length_set, hreg]
  · have h7r : (7 : Nat) ≠ r.toNat := Ne.symm hrt
    have hrlt : r.toNat < 8 := by omega
    simp [getD_set_self, getD_set_ne, List.length_set, hreg, hrt, h7r, hrlt]

/-- Witness for C6 pushing and popping register 0 on the fresh CPU. -/
theorem C6_push_pop_roundtrip_witness :
    (initState.ram.length = 256 ∧ initState.reg.length = 8
      ∧ (0 : Int) ≤ 0 ∧ (0 : Int) < 8
      ∧ 0 ≤ initState.end_of_stack
      ∧ initState.end_of_stack ≤ regVal initState 7 - 1
      ∧ regVal initState 7 ≤ 0xF4)
  ∧ (∃ s1 s2, handle_PUSH initState 0 = .ok s1 ∧ handle_POP s1 0 = .ok s2
      ∧ regVal s2 (0 : Int).toNat = regVal initState (0 : Int).toNat
      ∧ regVal s2 7 = regVal initState 7) :=
  ⟨by decide,
   C6_push_pop_roundtrip initState 0 (by decide) (by decide) (by decide) (by decide)
     (by decide) (by decide) (by decide)⟩

/-! ## Claim C9 (code bug): unknown-instruction handling is unreachable -/

/-- C9 (code bug): the dispatcher does implement the claimed behaviour —
the second conjunct shows `execute_instruction_body` (lines 144-180,
after the timer guard) on the fresh state with unknown opcode byte 0 at
`pc = 0` printing the unknown-instruction diagnostic and setting the
halted flag, with no register and no RAM mutation (only `pc` advances by
1 per line 180).  But the claim fails on the code as written: the first
conjunct shows that the timer guard of line 140 raises `TypeError`, so
`execute_instruction` aborts before the unknown-instruction check runs,
and the machine never reports the diagnostic nor sets the halted flag. -/
theorem C9_unknown_instruction_preempted :
    execute_instruction initState 0 0 0 0 = .err initState (.typeError timedeltaGeIntMsg)
  ∧ execute_instruction_body initState 0 0 0
      = .ok { initState with output := [ "Unknown instruction 0" ], halted := true, pc := 1 } :=
  ⟨rfl, by decide⟩

/-! ## Claim C10 (code bug): the interrupt save is unreachable -/

/-- State with a pending masked interrupt: `reg[5] = reg[6] = 6` (bits 1
and 2 set, so the first set bit of the masked result is bit 1), distinct
values in registers 0-4, and `pc = 3`. -/
def intrState : CPU := { initState with
  reg := [10, 11, 12, 13, 14, 6, 6, 0xF4]
  pc := 3 }

/-- What the interrupt scan followed by the HLT dispatch produces from
`intrState`: mask and status registers cleared to 0, SP moved down by 9
(one decrement before each write), and pc, fl, then registers 0-6 in
ascending order stored at addresses 243 down to 235 (the cells holding 0
are unchanged because RAM starts zeroed); the save ran exactly once even
though two mask bits were pending. -/
def intrSaved : CPU := { initState with
  reg := [10, 11, 12, 13, 14, 0, 0, 235]
  ram := ((((((List.replicate 256 0).set 243 3).set 241 10).set 240 11).set 239 12).set
    238 13).set 237 14
  pc := 4
  halted := true }

/-- C10 (code bug): the interrupt controller (lines 144-163) does
implement the claimed behaviour — the second conjunct shows
`execute_instruction_body` on `intrState` clearing both reserved
registers, saving pc, fl and registers 0-6 with SP decremented before
each write, and acting only on the first pending bit.  But the claim
fails on the code as written: the first conjunct shows the timer guard of
line 140 raising `TypeError` on every cycle, before the masked-interrupt
scan, so the state save never runs. -/
theorem C10_interrupt_save_preempted :
    execute_instruction intrState 0 HLT 0 0 = .err intrState (.typeError timedeltaGeIntMsg)
  ∧ execute_instruction_body intrState HLT 0 0 = .ok intrSaved :=
  ⟨rfl, by decide⟩

end LS8
